import Mathlib

/-!
Verification of the weather lookup widget (`src/scripts.js`) against its
natural-language specification.

The JavaScript source is shallowly embedded: every pure function is a Lean
function over `String`, `Nat`, `Int` and `Rat`; the one asynchronous network
call is a parameter `net : String → FetchResult` mapping the request URL to
the network's answer; the DOM state touched by the presentation controller
(button disabled flag, loading class, result container content) is an explicit
`UIState` record threaded through `getWeatherInformation`, whose
`try/catch/finally` is modelled with an `Except` value for the `try` body, a
`match` for the `catch`, and an unconditional final update for the `finally`.

A note on the string literals: every non-ASCII literal in `src/scripts.js` is
stored as the Mac-Roman mojibake of an intended UTF-8 emoji (for example the
temperature suffix is the three code points U+00AC U+221E 'C' where "°C" was
intended, and the "sun emoji" literal is the six code points U+201A U+00F2
U+00C4 U+00D4 U+220F U+00E8).  The constants below reproduce exactly the code
points stored in the file, built with `Char.ofNat` so the embedding is
unambiguous.
-/

/-- The code points of the WHATWG/ECMAScript whitespace set that
`String.prototype.trim` removes: tab, line feed, vertical tab, form feed,
carriage return, space, NBSP, the Unicode space separators, the line and
paragraph separators, narrow NBSP, medium mathematical space, ideographic
space and the BOM. -/
def jsWhitespaceCodes : List Nat :=
  [0x0009, 0x000A, 0x000B, 0x000C, 0x000D, 0x0020, 0x00A0, 0x1680,
   0x2000, 0x2001, 0x2002, 0x2003, 0x2004, 0x2005, 0x2006, 0x2007,
   0x2008, 0x2009, 0x200A, 0x2028, 0x2029, 0x202F, 0x205F, 0x3000, 0xFEFF]

/-- Whether a character is JavaScript whitespace (the set `trim` strips). -/
def isJsWhitespace (c : Char) : Bool :=
  jsWhitespaceCodes.contains c.toNat

/-- `String.prototype.trim` on the underlying character list: drop whitespace
from the front, then from the back (via a reversal). -/
def jsTrimList (l : List Char) : List Char :=
  ((l.dropWhile isJsWhitespace).reverse.dropWhile isJsWhitespace).reverse

/-- JavaScript `location.trim()`. -/
def jsTrim (s : String) : String :=
  String.mk (jsTrimList s.data)

/-- JavaScript `haystack.includes(needle)`: substring containment. -/
def jsIncludes (s pattern : String) : Bool :=
  decide (pattern.data <:+: s.data)

/-- A string from a list of Unicode code points (used for the literals of the
source file that are not plain ASCII). -/
def strOfCodes (codes : List Nat) : String :=
  String.mk (codes.map Char.ofNat)

/-- A single-quote character as a string (code point 39). -/
def singleQuote : String := strOfCodes [39]

/-- The `WEATHER_API_CONFIG` object of `src/scripts.js` lines 11-15. -/
structure WeatherApiConfig where
  apiKey : String
  baseUrl : String
  options : String

def WEATHER_API_CONFIG : WeatherApiConfig :=
  { apiKey := "77cd39c3c35e4552b93173121250909"
    baseUrl := "https://api.weatherapi.com/v1/current.json"
    options := "aqi=no" }

/-- The `DOM_ELEMENTS` selector table of `src/scripts.js` lines 18-27. -/
structure DomElementIds where
  locationInput : String
  searchButton : String
  weatherResult : String
  weatherIcon : String
  floatingElements : String
  searchCard : String
  appHeader : String
  backgroundElements : String

def DOM_ELEMENTS : DomElementIds :=
  { locationInput := "location-input"
    searchButton := "search-button"
    weatherResult := "weather-result"
    weatherIcon := ".weather-icon"
    floatingElements := ".floating-element"
    searchCard := ".search-card"
    appHeader := ".app-header"
    backgroundElements := ".background-elements" }

/-- The `CSS_CLASSES` table of `src/scripts.js` lines 30-38 (the `show` field
is written `showClass` because `show` is a Lean keyword). -/
structure CssClasses where
  showClass : String
  loading : String
  weatherCondition : String
  weatherLocation : String
  weatherTemperature : String
  errorMessage : String
  warningMessage : String

def CSS_CLASSES : CssClasses :=
  { showClass := "show"
    loading := "loading"
    weatherCondition := "weather-condition"
    weatherLocation := "weather-location"
    weatherTemperature := "weather-temperature"
    errorMessage := "error-message"
    warningMessage := "warning-message" }

/-- The characters `encodeURIComponent` leaves unescaped: ASCII letters and
digits and `- _ . ! ~ * ' ( )`. -/
def isUnreservedURIChar (c : Char) : Bool :=
  c.isAlphanum || c == '-' || c == '_' || c == '.' || c == '!' || c == '~' ||
    c == '*' || c == Char.ofNat 39 || c == '(' || c == ')'

/-- Upper-case hexadecimal digit for a value below 16. -/
def hexDigitChar (n : Nat) : Char :=
  if n < 10 then Char.ofNat (48 + n) else Char.ofNat (55 + n)

/-- A byte as a percent escape `%HH`. -/
def percentEncodeByte (b : Nat) : List Char :=
  ['%', hexDigitChar (b / 16), hexDigitChar (b % 16)]

/-- The UTF-8 bytes of one code point. -/
def utf8Bytes (c : Char) : List Nat :=
  let n := c.toNat
  if n < 0x80 then [n]
  else if n < 0x800 then [0xC0 + n / 64, 0x80 + n % 64]
  else if n < 0x10000 then [0xE0 + n / 4096, 0x80 + (n / 64) % 64, 0x80 + n % 64]
  else [0xF0 + n / 262144, 0x80 + (n / 4096) % 64, 0x80 + (n / 64) % 64, 0x80 + n % 64]

/-- How `encodeURIComponent` renders one character: kept if unreserved,
otherwise each UTF-8 byte becomes a percent escape. -/
def encodeURIComponentChar (c : Char) : List Char :=
  if isUnreservedURIChar c then [c] else (utf8Bytes c).flatMap percentEncodeByte

/-- JavaScript `encodeURIComponent`. -/
def encodeURIComponent (s : String) : String :=
  String.mk (s.data.flatMap encodeURIComponentChar)

/-- `buildWeatherApiUrl` of `src/scripts.js` lines 356-359. -/
def buildWeatherApiUrl (location : String) : String :=
  let encodedLocation := encodeURIComponent (jsTrim location)
  WEATHER_API_CONFIG.baseUrl ++ "?key=" ++ WEATHER_API_CONFIG.apiKey ++ "&q=" ++
    encodedLocation ++ "&" ++ WEATHER_API_CONFIG.options

/-- `validateLocationInput` of `src/scripts.js` lines 384-386:
`location && location.trim().length > 0`, with JavaScript string truthiness
(the empty string is falsy) read as a boolean. -/
def validateLocationInput (location : String) : Bool :=
  !(location == "") && decide (0 < (jsTrim location).length)

/-- Literal of line 329 (intended: the sun emoji). -/
def sunnyClearEmoji : String := strOfCodes [0x201A, 0xF2, 0xC4, 0xD4, 0x220F, 0xE8]

/-- Literal of line 331 (intended: the cloud emoji). -/
def cloudEmoji : String := strOfCodes [0x201A, 0xF2, 0xC5, 0xD4, 0x220F, 0xE8]

/-- Literal of line 333 (intended: the rain emoji). -/
def rainEmoji : String := strOfCodes [0xF8FF, 0xFC, 0xE5, 0xDF, 0xD4, 0x220F, 0xE8]

/-- Literal of line 335 (intended: the snowflake emoji). -/
def snowEmoji : String := strOfCodes [0x201A, 0xF9, 0xD1, 0xD4, 0x220F, 0xE8]

/-- Literal of line 337 (intended: the thunderstorm emoji). -/
def thunderEmoji : String := strOfCodes [0x201A, 0xF5, 0xE0, 0xD4, 0x220F, 0xE8]

/-- Literal of line 339 (intended: the fog emoji). -/
def fogEmoji : String := strOfCodes [0xF8FF, 0xFC, 0xE5, 0xB4, 0xD4, 0x220F, 0xE8]

/-- Literal of line 341 (intended: the wind emoji). -/
def windEmoji : String := strOfCodes [0xF8FF, 0xFC, 0xED, 0xAE]

/-- Literal of line 344 (intended: the sun-behind-cloud default emoji). -/
def defaultEmoji : String := strOfCodes [0xF8FF, 0xFC, 0xE5, 0xA7, 0xD4, 0x220F, 0xE8]

/-- Literal of line 309 (intended: the globe emoji of the location row). -/
def globeEmoji : String := strOfCodes [0xF8FF, 0xFC, 0xE5, 0xE7]

/-- The temperature suffix of line 312 (intended: a degree sign and C; stored
as U+00AC U+221E 'C'). -/
def degreeCelsius : String := strOfCodes [0xAC, 0x221E, 0x43]

/-- The blank-input warning of line 402 (a warning-sign literal, a space and
the sentence). -/
def enterLocationWarning : String :=
  strOfCodes [0x201A, 0xF6, 0x2020, 0xD4, 0x220F, 0xE8] ++ " Please enter a location."

/-- The error-message head of line 438 (a cross-mark literal and " Error: "). -/
def fetchErrorHead : String :=
  strOfCodes [0x201A, 0xF9, 0xE5] ++ " Error: "

/-- JavaScript `condition.toLowerCase()`, character by character (the keyword
matching of `getWeatherEmoji` only involves ASCII). -/
def jsToLower (s : String) : String :=
  String.mk (s.data.map Char.toLower)

/-- `getWeatherEmoji` of `src/scripts.js` lines 325-345: lower-case the
condition text and test the keyword categories in order. -/
def getWeatherEmoji (condition : String) : String :=
  let conditionLower := jsToLower condition
  if jsIncludes conditionLower "sunny" || jsIncludes conditionLower "clear" then
    sunnyClearEmoji
  else if jsIncludes conditionLower "cloud" then
    cloudEmoji
  else if jsIncludes conditionLower "rain" || jsIncludes conditionLower "drizzle" then
    rainEmoji
  else if jsIncludes conditionLower "snow" then
    snowEmoji
  else if jsIncludes conditionLower "thunder" || jsIncludes conditionLower "storm" then
    thunderEmoji
  else if jsIncludes conditionLower "fog" || jsIncludes conditionLower "mist" then
    fogEmoji
  else if jsIncludes conditionLower "wind" then
    windEmoji
  else
    defaultEmoji

/-- The ordered keyword categories of the specification, each with the string
the code returns for it. -/
def emojiKeywordCategories : List (List String × String) :=
  [(["sunny", "clear"], sunnyClearEmoji),
   (["cloud"], cloudEmoji),
   (["rain", "drizzle"], rainEmoji),
   (["snow"], snowEmoji),
   (["thunder", "storm"], thunderEmoji),
   (["fog", "mist"], fogEmoji),
   (["wind"], windEmoji)]

/-- Modelled from the spec: "a representative emoji selected by case-insensitive
substring matching against the condition text against an ordered list of keyword
categories (clear/sunny, cloudy, rain/drizzle, snow, thunder/storm, fog/mist,
windy), first match wins, with a default fallback emoji when no keyword
matches". -/
def selectEmojiSpec (condition : String) : String :=
  match emojiKeywordCategories.find?
      (fun category => category.1.any (fun keyword => jsIncludes (jsToLower condition) keyword)) with
  | some category => category.2
  | none => defaultEmoji

/-- JavaScript `Math.round` on a rational: the floor of the value plus one
half.  Written with integer floor division `(2 num + den) / (2 den)` so that it
evaluates by kernel reduction (`Rat.add` is irreducible); `jsRound_eq` below
proves it equal to `Rat.floor (x + 1/2)`. -/
def jsRound (x : Rat) : Int :=
  (2 * x.num + (x.den : Int)) / (2 * (x.den : Int))

/-- The nested `condition` object of a weather response. -/
structure WeatherCondition where
  text : String
deriving DecidableEq

/-- The nested `current` object of a weather response. -/
structure WeatherCurrent where
  temp_c : Rat
  condition : WeatherCondition
deriving DecidableEq

/-- The nested `location` object of a weather response. -/
structure WeatherLocation where
  name : String
  country : String
deriving DecidableEq

/-- A structurally complete weather response body. -/
structure WeatherData where
  current : WeatherCurrent
  location : WeatherLocation
deriving DecidableEq

/-- `formatWeatherDisplay` of `src/scripts.js` lines 301-318: the template
literal with its exact text, indentation and the literals of the file. -/
def formatWeatherDisplay (weatherData : WeatherData) : String :=
  let temperature := jsRound weatherData.current.temp_c
  let condition := weatherData.current.condition.text
  let locationName := weatherData.location.name ++ ", " ++ weatherData.location.country
  let weatherIcon := getWeatherEmoji condition
  "\n        <div class=\"" ++ CSS_CLASSES.weatherLocation ++ "\">\n            " ++
    globeEmoji ++ " <strong>" ++ locationName ++ "</strong>\n        </div>\n        <div class=\"" ++
    CSS_CLASSES.weatherTemperature ++ "\">\n            " ++ toString temperature ++
    degreeCelsius ++ "\n        </div>\n        <div class=\"" ++ CSS_CLASSES.weatherCondition ++
    "\">\n            " ++ weatherIcon ++ " " ++ condition ++ "\n        </div>\n    "

/-- A parsed response body: either structurally complete, or of the wrong
shape, in which case `formatWeatherDisplay`'s field accesses throw (modelled by
the carried message). -/
inductive FetchBody where
  | valid (data : WeatherData)
  | malformed (errorMessage : String)
deriving DecidableEq

/-- What the network answers for a URL: a transport failure (rejected
`fetch`), or an HTTP response with a status and a parsed JSON body. -/
inductive FetchResult where
  | transportError (message : String)
  | response (status : Nat) (body : FetchBody)

/-- `Response.ok` of the Fetch standard: status in the range 200-299. -/
def responseOk (status : Nat) : Bool :=
  decide (200 ≤ status ∧ status < 300)

/-- `fetchWeatherData` of `src/scripts.js` lines 367-377: build the URL, ask
the network, throw `Weather data not available (status)` when `!response.ok`,
otherwise return the parsed body. -/
def fetchWeatherData (location : String) (net : String → FetchResult) :
    Except String FetchBody :=
  let apiUrl := buildWeatherApiUrl location
  match net apiUrl with
  | FetchResult.transportError message => Except.error message
  | FetchResult.response status body =>
      if !responseOk status then
        Except.error ("Weather data not available (" ++ toString status ++ ")")
      else
        Except.ok body

/-- What the weather-result container shows. -/
inductive ResultContent where
  | empty
  | message (text messageType : String)
  | html (fragment : String)
deriving DecidableEq

/-- The page state the presentation controller mutates: the search button's
`disabled` flag, its `loading` class (with the loader-dot tween), and the
result container. -/
structure UIState where
  buttonDisabled : Bool
  buttonLoading : Bool
  resultContent : ResultContent
deriving DecidableEq

/-- `animateButtonLoading` of `src/scripts.js` lines 155-188: adds the
`loading` class and starts the dot tween, or removes the class and kills the
tween. -/
def animateButtonLoading (isLoading : Bool) (st : UIState) : UIState :=
  if isLoading then
    { st with buttonLoading := true }
  else
    { st with buttonLoading := false }

/-- `displayMessage` of `src/scripts.js` lines 266-284: put a message of the
given type into the result container. -/
def displayMessage (message messageType : String) (st : UIState) : UIState :=
  { st with resultContent := ResultContent.message message messageType }

/-- One run of `getWeatherInformation`: whether the fetch client was invoked,
whether the Loading state was entered, and the final page state. -/
structure LookupOutcome where
  fetchInvoked : Bool
  enteredLoading : Bool
  final : UIState

/-- `getWeatherInformation` of `src/scripts.js` lines 396-454.  The input
field's value is `fieldValue`; `net` answers the one network request.  The
`try` body either produces the success state or an error message; the `catch`
renders the error; the `finally` re-enables the button and stops the loading
animation on every path that entered it. -/
def getWeatherInformation (fieldValue : String) (net : String → FetchResult)
    (st : UIState) : LookupOutcome :=
  let locationInput := jsTrim fieldValue
  if !validateLocationInput locationInput then
    { fetchInvoked := false
      enteredLoading := false
      final := displayMessage enterLocationWarning "warning" st }
  else
    let loading := animateButtonLoading true { st with buttonDisabled := true }
    let tryResult : Except String UIState :=
      match fetchWeatherData locationInput net with
      | Except.error e => Except.error e
      | Except.ok (FetchBody.malformed errorMessage) => Except.error errorMessage
      | Except.ok (FetchBody.valid weatherData) =>
          Except.ok
            { loading with resultContent := ResultContent.html (formatWeatherDisplay weatherData) }
    let handled :=
      match tryResult with
      | Except.ok s => s
      | Except.error e => displayMessage (fetchErrorHead ++ e) "error" loading
    let cleaned := animateButtonLoading false { handled with buttonDisabled := false }
    { fetchInvoked := true
      enteredLoading := true
      final := cleaned }

/-- `getElementByIdSafely` of `src/scripts.js` lines 253-259: look the id up in
the document and log an error when it is absent; returns the element (modelled
as `Unit`) and the console-error lines produced. -/
def getElementByIdSafely (document : String → Bool) (elementId : String) :
    Option Unit × List String :=
  if document elementId then
    (some (), [])
  else
    (none, ["Element with ID " ++ singleQuote ++ elementId ++ singleQuote ++ " not found"])

/-- One run of `initializeWeatherApp`: the console errors logged, and whether
the event listeners were attached and the animations started. -/
structure InitOutcome where
  consoleErrors : List String
  eventListenersAttached : Bool
  animationsStarted : Bool

/-- `initializeWeatherApp` of `src/scripts.js` lines 525-562: cache the three
required elements, abort with a logged diagnostic when one is missing, and
otherwise start the animations and attach the listeners. -/
def initializeWeatherApp (document : String → Bool) : InitOutcome :=
  let locationLookup := getElementByIdSafely document DOM_ELEMENTS.locationInput
  let buttonLookup := getElementByIdSafely document DOM_ELEMENTS.searchButton
  let resultLookup := getElementByIdSafely document DOM_ELEMENTS.weatherResult
  let logs := locationLookup.2 ++ buttonLookup.2 ++ resultLookup.2
  if locationLookup.1.isNone || buttonLookup.1.isNone || resultLookup.1.isNone then
    { consoleErrors := logs ++ ["Required DOM elements not found. App initialization failed."]
      eventListenersAttached := false
      animationsStarted := false }
  else
    { consoleErrors := logs
      eventListenersAttached := true
      animationsStarted := true }

/-- The mocked successful response of the specification's end-to-end test. -/
def parisWeatherData : WeatherData :=
  { current := { temp_c := mkRat 184 10, condition := { text := "Sunny" } }
    location := { name := "Paris", country := "France" } }

/-- A network that answers every URL with status 400 (and a well-formed body). -/
def paris400Net : String → FetchResult :=
  fun _ => FetchResult.response 400 (FetchBody.valid parisWeatherData)

/-- A network that answers every URL with a successful Paris response. -/
def parisOkNet : String → FetchResult :=
  fun _ => FetchResult.response 200 (FetchBody.valid parisWeatherData)

/-- A document in which every element id resolves. -/
def fullDocument : String → Bool := fun _ => true

/-- A document with no elements at all. -/
def emptyDocument : String → Bool := fun _ => false

/-- The page state before a lookup: button enabled, no loading class, empty
result container. -/
def idleState : UIState :=
  { buttonDisabled := false, buttonLoading := false, resultContent := ResultContent.empty }

/-! Helper lemmas shared by the claim theorems. -/

theorem dropWhile_self {α : Type} (p : α → Bool) (l : List α) :
    List.dropWhile p (List.dropWhile p l) = List.dropWhile p l := by
  induction l with
  | nil => rfl
  | cons a t ih =>
    cases h : p a with
    | true => simp [List.dropWhile_cons, h, ih]
    | false => simp [List.dropWhile_cons, h]

theorem head_dropWhile_false {α : Type} (p : α → Bool) (l : List α) {a : α} {t : List α}
    (h : List.dropWhile p l = a :: t) : p a = false := by
  induction l with
  | nil => simp [List.dropWhile] at h
  | cons b u ih =>
    rw [List.dropWhile_cons] at h
    by_cases hb : p b = true
    · rw [if_pos hb] at h
      exact ih h
    · rw [if_neg hb] at h
      injection h with h1 _
      subst h1
      simpa using hb

theorem getLast?_dropWhile {α : Type} (p : α → Bool) (l : List α)
    (h : List.dropWhile p l ≠ []) :
    (List.dropWhile p l).getLast? = l.getLast? := by
  induction l with
  | nil => simp [List.dropWhile] at h
  | cons b u ih =>
    by_cases hb : p b = true
    · rw [List.dropWhile_cons, if_pos hb] at h ⊢
      have hu : u ≠ [] := by
        rintro rfl
        simp [List.dropWhile] at h
      obtain ⟨x, v, rfl⟩ := List.exists_cons_of_ne_nil hu
      rw [ih h, List.getLast?_cons_cons]
    · rw [List.dropWhile_cons, if_neg hb]

theorem jsTrimList_idem (l : List Char) : jsTrimList (jsTrimList l) = jsTrimList l := by
  unfold jsTrimList
  set m := List.dropWhile isJsWhitespace l with hm
  set x := List.dropWhile isJsWhitespace m.reverse with hx
  rcases eq_or_ne x [] with hxe | hxn
  · rw [hxe]
    simp [List.dropWhile]
  · have hmn : m ≠ [] := by
      rintro hme
      apply hxn
      rw [hx, hme]
      simp [List.dropWhile]
    obtain ⟨a, t, hat⟩ := List.exists_cons_of_ne_nil hmn
    have hpa : isJsWhitespace a = false :=
      head_dropWhile_false isJsWhitespace l (hm.symm.trans hat)
    have hgl : x.getLast? = m.head? := by
      rw [hx, getLast?_dropWhile _ _ (hx ▸ hxn), List.getLast?_reverse]
    have hhead : x.reverse.head? = some a := by
      rw [List.head?_reverse, hgl, hat]
      rfl
    obtain ⟨c, w, hcw⟩ := List.exists_cons_of_ne_nil (l := x.reverse) (by simpa using hxn)
    have hca : c = a := by
      rw [hcw] at hhead
      injection hhead
    have hstepA : x.reverse.dropWhile isJsWhitespace = x.reverse := by
      rw [hcw, List.dropWhile_cons, hca, hpa]
      simp
    rw [hstepA, List.reverse_reverse, hx, dropWhile_self]

theorem jsTrim_idem (s : String) : jsTrim (jsTrim s) = jsTrim s := by
  simp [jsTrim, jsTrimList_idem]

theorem validate_true_iff (s : String) :
    validateLocationInput s = true ↔ 0 < (jsTrim s).length := by
  simp only [validateLocationInput, Bool.and_eq_true, decide_eq_true_eq,
    Bool.not_eq_true', beq_eq_false_iff_ne, ne_eq]
  constructor
  · exact fun h => h.2
  · intro h
    refine ⟨?_, h⟩
    intro hs
    subst hs
    exact absurd h (by decide)

theorem jsTrim_of_all_whitespace (s : String) (h : ∀ c ∈ s.data, isJsWhitespace c = true) :
    jsTrim s = "" := by
  have h0 : List.dropWhile isJsWhitespace s.data = [] := List.dropWhile_eq_nil_iff.mpr h
  simp only [jsTrim, jsTrimList]
  rw [h0]
  rfl

theorem buildWeatherApiUrl_contains_encoded (s : String) :
    ∃ p q, buildWeatherApiUrl s = p ++ encodeURIComponent (jsTrim s) ++ q :=
  ⟨WEATHER_API_CONFIG.baseUrl ++ "?key=" ++ WEATHER_API_CONFIG.apiKey ++ "&q=",
   "&" ++ WEATHER_API_CONFIG.options, by
    simp [buildWeatherApiUrl, String.append_assoc]⟩

theorem char_toNat_lt_uniMax (c : Char) : c.toNat < 1114112 := by
  rcases c.valid with h | ⟨_, h⟩
  · have h1 : c.val.toNat < 55296 := h
    simp only [Char.toNat]
    omega
  · have h1 : c.val.toNat < 1114112 := h
    simp only [Char.toNat]
    omega

theorem utf8Bytes_lt (c : Char) : ∀ b ∈ utf8Bytes c, b < 256 := by
  intro b hb
  have hc : c.toNat < 1114112 := char_toNat_lt_uniMax c
  simp only [utf8Bytes] at hb
  split_ifs at hb with h1 h2 h3 <;> simp at hb <;> omega

theorem hexDigitChar_unreserved (n : Nat) (h : n < 16) :
    isUnreservedURIChar (hexDigitChar n) = true := by
  interval_cases n <;> decide

theorem encodeURIComponent_safe (s : String) :
    ∀ c ∈ (encodeURIComponent s).data, (isUnreservedURIChar c || c == '%') = true := by
  intro c hc
  have hdata : (encodeURIComponent s).data = s.data.flatMap encodeURIComponentChar := rfl
  rw [hdata, List.mem_flatMap] at hc
  obtain ⟨a, _, ha⟩ := hc
  unfold encodeURIComponentChar at ha
  split_ifs at ha with hu
  · simp only [List.mem_singleton] at ha
    subst ha
    simp [hu]
  · rw [List.mem_flatMap] at ha
    obtain ⟨b, hb, hpb⟩ := ha
    have hb256 : b < 256 := utf8Bytes_lt a b hb
    unfold percentEncodeByte at hpb
    simp only [List.mem_cons, List.mem_singleton, List.not_mem_nil, or_false] at hpb
    rcases hpb with h | h | h
    · subst h
      simp
    · subst h
      simp [hexDigitChar_unreserved (b / 16) (by omega)]
    · subst h
      simp [hexDigitChar_unreserved (b % 16) (by omega)]

theorem jsRound_eq (x : Rat) : jsRound x = Rat.floor (x + mkRat 1 2) := by
  have hmul : x * (x.den : ℚ) = (x.num : ℚ) := by
    field_simp [Rat.num_div_den]
  have hfloor : Rat.floor (x + mkRat 1 2) = ⌊(x + mkRat 1 2 : ℚ)⌋ :=
    (Rat.floor_def' _).trans Rat.floor_def.symm
  have hden : ((x.den : ℚ)) ≠ 0 := Nat.cast_ne_zero.mpr x.den_nz
  have hx : (x + mkRat 1 2 : ℚ) =
      ((2 * x.num + (x.den : ℤ) : ℤ) : ℚ) / ((2 * x.den : ℕ) : ℚ) := by
    rw [Rat.mkRat_eq_div]
    push_cast
    field_simp
    linear_combination (4 : ℚ) * hmul
  rw [hfloor, hx, Rat.floor_intCast_div_natCast]
  unfold jsRound
  push_cast
  ring_nf

/-! The claim theorems. -/

/-- C1: for every string, `validateLocationInput` returns true exactly when the
string's length after trimming whitespace is greater than zero, and it returns
false on every string that is empty or consists only of whitespace; it is a
pure boolean predicate with no side effects or error conditions. -/
theorem validateLocationInput_spec :
    (∀ s : String, validateLocationInput s = true ↔ 0 < (jsTrim s).length) ∧
    (∀ s : String, (∀ c ∈ s.data, isJsWhitespace c = true) → validateLocationInput s = false) := by
  constructor
  · exact validate_true_iff
  · intro s h
    have ht : jsTrim s = "" := jsTrim_of_all_whitespace s h
    have hlen : ¬ 0 < (jsTrim s).length := by
      rw [ht]
      decide
    have hne : validateLocationInput s ≠ true := fun hv => hlen ((validate_true_iff s).mp hv)
    simpa using hne

/-- C2: when the network answers the built URL with an HTTP response, a
non-2xx status makes `fetchWeatherData` fail with the message
`Weather data not available (status)` — which contains the decimal
representation of the status — and a 2xx status makes it return the parsed
response body. -/
theorem fetchWeatherData_statusSpec (location : String) (status : Nat) (body : FetchBody)
    (net : String → FetchResult)
    (hnet : net (buildWeatherApiUrl location) = FetchResult.response status body) :
    (¬(200 ≤ status ∧ status < 300) →
        fetchWeatherData location net =
          Except.error ("Weather data not available (" ++ toString status ++ ")")) ∧
    ((200 ≤ status ∧ status < 300) → fetchWeatherData location net = Except.ok body) := by
  constructor <;> intro hs <;> simp [fetchWeatherData, hnet, responseOk, hs]

/-- C2 witness: a status-400 response yields the error whose message contains
"400". -/
theorem fetchWeatherData_statusSpec_witness :
    fetchWeatherData "Paris" paris400Net =
      Except.error ("Weather data not available (" ++ toString 400 ++ ")") :=
  (fetchWeatherData_statusSpec "Paris" 400 (FetchBody.valid parisWeatherData) paris400Net
    rfl).1 (by decide)

/-- C3: a submission whose field value is empty or whitespace-only after
trimming never invokes the fetch client and displays the blank-input warning
message, whatever the network or prior page state. -/
theorem getWeatherInformation_blankInput (fieldValue : String) (net : String → FetchResult)
    (st : UIState) (h : jsTrim fieldValue = "") :
    (getWeatherInformation fieldValue net st).fetchInvoked = false ∧
    (getWeatherInformation fieldValue net st).final.resultContent =
      ResultContent.message enterLocationWarning "warning" := by
  have hv : validateLocationInput (jsTrim fieldValue) = false := by
    rw [h]
    decide
  simp [getWeatherInformation, hv, displayMessage]

/-- C3 witness: a whitespace-only submission. -/
theorem getWeatherInformation_blankInput_witness :
    (getWeatherInformation "   " parisOkNet idleState).fetchInvoked = false ∧
    (getWeatherInformation "   " parisOkNet idleState).final.resultContent =
      ResultContent.message enterLocationWarning "warning" :=
  getWeatherInformation_blankInput "   " parisOkNet idleState (by decide)

/-- C4: every run of `getWeatherInformation` that entered the Loading state —
whatever the outcome: success, transport failure, non-2xx status, or a
malformed body on which formatting throws — ends with the search button
re-enabled (`disabled` false) and the loading indicator stopped. -/
theorem getWeatherInformation_cleanup (fieldValue : String) (net : String → FetchResult)
    (st : UIState) (h : (getWeatherInformation fieldValue net st).enteredLoading = true) :
    (getWeatherInformation fieldValue net st).final.buttonDisabled = false ∧
    (getWeatherInformation fieldValue net st).final.buttonLoading = false := by
  by_cases hv : validateLocationInput (jsTrim fieldValue) = true
  · simp [getWeatherInformation, hv, animateButtonLoading]
  · have hv' : validateLocationInput (jsTrim fieldValue) = false := by simpa using hv
    simp [getWeatherInformation, hv'] at h

/-- C4 witness: a successful lookup ends with the button re-enabled and the
loading animation stopped. -/
theorem getWeatherInformation_cleanup_witness :
    (getWeatherInformation "Paris" parisOkNet idleState).final.buttonDisabled = false ∧
    (getWeatherInformation "Paris" parisOkNet idleState).final.buttonLoading = false :=
  getWeatherInformation_cleanup "Paris" parisOkNet idleState (by decide)

/-- C5: `getWeatherEmoji` coincides with the specification's selector —
case-insensitive substring matching of the ordered keyword categories
clear/sunny, cloudy, rain/drizzle, snow, thunder/storm, fog/mist, windy, first
match wins, with a default fallback — and in particular "Patchy rain possible"
selects the rain/drizzle category (also in upper case; rain wins over the
later thunder/storm category even when both match; text with no keyword falls
back to the default). -/
theorem getWeatherEmoji_spec :
    (∀ condition : String, getWeatherEmoji condition = selectEmojiSpec condition) ∧
    getWeatherEmoji "Patchy rain possible" = rainEmoji ∧
    getWeatherEmoji "PATCHY RAIN POSSIBLE" = rainEmoji ∧
    getWeatherEmoji "Torrential rain and storm" = rainEmoji ∧
    getWeatherEmoji "Moonlit night" = defaultEmoji := by
  refine ⟨?_, by decide, by decide, by decide, by decide⟩
  intro condition
  simp only [getWeatherEmoji, selectEmojiSpec, emojiKeywordCategories, List.find?_cons,
    List.any_cons, List.any_nil, Bool.or_false]
  cases h1 : (jsIncludes (jsToLower condition) "sunny" || jsIncludes (jsToLower condition) "clear") <;>
  cases h2 : jsIncludes (jsToLower condition) "cloud" <;>
  cases h3 : (jsIncludes (jsToLower condition) "rain" || jsIncludes (jsToLower condition) "drizzle") <;>
  cases h4 : jsIncludes (jsToLower condition) "snow" <;>
  cases h5 : (jsIncludes (jsToLower condition) "thunder" || jsIncludes (jsToLower condition) "storm") <;>
  cases h6 : (jsIncludes (jsToLower condition) "fog" || jsIncludes (jsToLower condition) "mist") <;>
  cases h7 : jsIncludes (jsToLower condition) "wind" <;>
  simp [h1, h2, h3, h4, h5, h6, h7]

set_option maxRecDepth 100000 in
/-- C6, evaluated at the specification's mocked Paris response: 21.6 rounds to
22 and 18.4 rounds to 18; the fragment contains "Paris, France", the condition
text, the rounded temperature followed by the source's degree literal, and the
code's sunny-category literal — but it does not contain "18°C" (with U+00B0)
or the real sun emoji (U+2600), because every non-ASCII literal of
`src/scripts.js` is stored as Mac-Roman mojibake of the intended UTF-8. -/
theorem formatWeatherDisplay_parisEvaluation :
    jsRound (mkRat 216 10) = 22 ∧
    jsRound parisWeatherData.current.temp_c = 18 ∧
    jsIncludes (formatWeatherDisplay parisWeatherData) "Paris, France" = true ∧
    jsIncludes (formatWeatherDisplay parisWeatherData) "Sunny" = true ∧
    jsIncludes (formatWeatherDisplay parisWeatherData) ("18" ++ degreeCelsius) = true ∧
    jsIncludes (formatWeatherDisplay parisWeatherData) sunnyClearEmoji = true ∧
    jsIncludes (formatWeatherDisplay parisWeatherData)
      (String.mk [Char.ofNat 0x31, Char.ofNat 0x38, Char.ofNat 0xB0, Char.ofNat 0x43]) = false ∧
    jsIncludes (formatWeatherDisplay parisWeatherData) (String.mk [Char.ofNat 0x2600]) = false := by
  refine ⟨by decide, by decide, by decide, by decide, by decide, by decide, by decide, by decide⟩

set_option maxRecDepth 100000 in
/-- C7: the Request Builder combines the fixed base endpoint, the fixed API
key, the percent-encoded trimmed location and the fixed options; the encoded
location appears verbatim in the URL; the encoder emits only unreserved
characters and percent escapes, so spaces and punctuation are tolerated
(space becomes %20, a comma %2C); and the URL built for "Paris" contains
"q=Paris". -/
theorem buildWeatherApiUrl_spec :
    (∀ location : String, buildWeatherApiUrl location =
        WEATHER_API_CONFIG.baseUrl ++ "?key=" ++ WEATHER_API_CONFIG.apiKey ++ "&q=" ++
          encodeURIComponent (jsTrim location) ++ "&" ++ WEATHER_API_CONFIG.options) ∧
    (∀ location : String, ∃ p q,
        buildWeatherApiUrl location = p ++ encodeURIComponent (jsTrim location) ++ q) ∧
    (∀ s : String, ∀ c ∈ (encodeURIComponent s).data,
        (isUnreservedURIChar c || c == '%') = true) ∧
    encodeURIComponent "New York" = "New%20York" ∧
    encodeURIComponent "a,b" = "a%2Cb" ∧
    jsIncludes (buildWeatherApiUrl "Paris") "q=Paris" = true :=
  ⟨fun _ => rfl, buildWeatherApiUrl_contains_encoded, encodeURIComponent_safe,
   by decide, by decide, by decide⟩

/-- C8 (amended): for every string that is non-empty after trimming, the
Input Validator returns true and the Request Builder produces a URL containing
the percent-encoded form of the trimmed string.  (As frozen — over all
non-empty strings — the claim fails on whitespace-only strings, see the
counterexample.) -/
theorem inputPipeline_nonblank (s : String) (h : 0 < (jsTrim s).length) :
    validateLocationInput s = true ∧
    ∃ p q, buildWeatherApiUrl s = p ++ encodeURIComponent (jsTrim s) ++ q :=
  ⟨(validate_true_iff s).mpr h, buildWeatherApiUrl_contains_encoded s⟩

/-- C8 counterexample: the single-space string is non-empty, yet the Input
Validator returns false on it, so the claim as frozen fails. -/
theorem inputPipeline_nonblank_cex :
    (" " : String) ≠ "" ∧ validateLocationInput " " = false := by
  decide

/-- C8 witness. -/
theorem inputPipeline_nonblank_witness :
    validateLocationInput "Paris" = true ∧
    ∃ p q, buildWeatherApiUrl "Paris" = p ++ encodeURIComponent (jsTrim "Paris") ++ q :=
  inputPipeline_nonblank "Paris" (by decide)

/-- C9: startup checks the text field, the submit control and the result
container; if any of the three is missing, initialization logs a diagnostic
and aborts without attaching event listeners or starting animations; when all
three exist, initialization completes, attaches the listeners and logs no
error. -/
theorem initializeWeatherApp_spec :
    (∀ document : String → Bool,
        (document DOM_ELEMENTS.locationInput = false ∨
         document DOM_ELEMENTS.searchButton = false ∨
         document DOM_ELEMENTS.weatherResult = false) →
        (initializeWeatherApp document).eventListenersAttached = false ∧
        (initializeWeatherApp document).animationsStarted = false ∧
        (initializeWeatherApp document).consoleErrors ≠ []) ∧
    (∀ document : String → Bool,
        document DOM_ELEMENTS.locationInput = true →
        document DOM_ELEMENTS.searchButton = true →
        document DOM_ELEMENTS.weatherResult = true →
        (initializeWeatherApp document).eventListenersAttached = true ∧
        (initializeWeatherApp document).animationsStarted = true ∧
        (initializeWeatherApp document).consoleErrors = []) := by
  constructor
  · intro document h
    rcases h with h | h | h <;>
      simp [initializeWeatherApp, getElementByIdSafely, h]
  · intro document h1 h2 h3
    simp [initializeWeatherApp, getElementByIdSafely, h1, h2, h3]

/-- C9 witness: a document with none of the elements aborts initialization
with a logged diagnostic. -/
theorem initializeWeatherApp_spec_witness :
    (initializeWeatherApp emptyDocument).eventListenersAttached = false ∧
    (initializeWeatherApp emptyDocument).animationsStarted = false ∧
    (initializeWeatherApp emptyDocument).consoleErrors ≠ [] :=
  initializeWeatherApp_spec.1 emptyDocument (Or.inl rfl)

/-- C10: `buildWeatherApiUrl` trims its argument itself before encoding, so
for every string it produces the same URL as for the trimmed string. -/
theorem buildWeatherApiUrl_trim_invariant (s : String) :
    buildWeatherApiUrl s = buildWeatherApiUrl (jsTrim s) := by
  simp [buildWeatherApiUrl, jsTrim_idem]
